import Mathlib

/-!
Verification of the real-time inventory and price monitoring backend.

Shallow embedding of the core service logic:
* machine integers (ids, quantities, timestamps) are modelled as `Int`,
* Python floats (prices, percentages) are modelled as `ℚ` (the code performs
  exact arithmetic expressible over the rationals; a division whose denominator
  is zero raises `ZeroDivisionError` in Python and is modelled explicitly by an
  `Option`/`Except` error value, never by the Lean convention `x / 0 = 0`),
* nullable columns are `Option`, Python `None`-vs-set partial updates are
  `Option` fields (`none` = field absent from `model_dump(exclude_unset=True)`),
* the relational store is an explicit list of rows threaded through each
  service operation.
-/

namespace InvMon

/-! ### Configuration (`app/core/config.py`) -/

/-- `settings.LOW_STOCK_THRESHOLD` (config.py, default 10). -/
def settings_LOW_STOCK_THRESHOLD : Int := 10

/-- `settings.PRICE_CHANGE_THRESHOLD` (config.py, default 0.05 = 5%). -/
def settings_PRICE_CHANGE_THRESHOLD : ℚ := 5 / 100

/-! ### Inventory data model (`app/models/inventory.py`) -/

/-- A row of the `inventory` table. -/
structure Inventory where
  id : Int
  sku : String
  name : String
  description : Option String
  category : Option String
  stock_quantity : Int
  reserved_quantity : Int
  available_quantity : Int
  weight : Option ℚ
  dimensions : Option String
  cost_price : ℚ
  min_stock_level : Int
  max_stock_level : Int
  is_active : Bool
  is_trackable : Bool
  deriving Repr, DecidableEq

/-- `Inventory.is_low_stock`: `available_quantity <= min_stock_level`. -/
def Inventory.is_low_stock (i : Inventory) : Bool :=
  i.available_quantity ≤ i.min_stock_level

/-- `Inventory.stock_status`: three-way bucket on `available_quantity`. -/
def Inventory.stock_status (i : Inventory) : String :=
  if i.available_quantity ≤ 0 then "out_of_stock"
  else if i.is_low_stock then "low_stock"
  else "in_stock"

/-! ### Inventory schemas (`app/schemas/inventory.py`) -/

/-- `InventoryCreate`: payload of a create request (validated:
`stock_quantity ≥ 0`, `reserved_quantity ≥ 0`). -/
structure InventoryCreate where
  sku : String
  name : String
  description : Option String
  category : Option String
  weight : Option ℚ
  dimensions : Option String
  cost_price : ℚ
  min_stock_level : Int
  max_stock_level : Int
  is_active : Bool
  is_trackable : Bool
  stock_quantity : Int
  reserved_quantity : Int
  deriving Repr, DecidableEq

/-- `InventoryUpdate`: partial-update payload; `none` models a field left
unset (absent from `model_dump(exclude_unset=True)`). -/
structure InventoryUpdate where
  sku : Option String
  name : Option String
  description : Option String
  category : Option String
  stock_quantity : Option Int
  reserved_quantity : Option Int
  weight : Option ℚ
  dimensions : Option String
  cost_price : Option ℚ
  min_stock_level : Option Int
  max_stock_level : Option Int
  is_active : Option Bool
  is_trackable : Option Bool
  deriving Repr, DecidableEq

/-- Alert view returned by `get_low_stock_items`
(`InventoryStockAlert` schema). -/
structure InventoryStockAlert where
  id : Int
  sku : String
  name : String
  current_stock : Int
  min_stock_level : Int
  shortage_amount : Int
  alert_level : String
  deriving Repr, DecidableEq

/-! ### Inventory service (`app/services/inventory_service.py`) -/

/-- `InventoryService.create_inventory`: builds the stored row, computing
`available_quantity = stock_quantity - reserved_quantity` (lines 235-246).
`nid` is the id assigned by the database. -/
def create_inventory (d : InventoryCreate) (nid : Int) : Inventory :=
  { id := nid
    sku := d.sku
    name := d.name
    description := d.description
    category := d.category
    stock_quantity := d.stock_quantity
    reserved_quantity := d.reserved_quantity
    available_quantity := d.stock_quantity - d.reserved_quantity
    weight := d.weight
    dimensions := d.dimensions
    cost_price := d.cost_price
    min_stock_level := d.min_stock_level
    max_stock_level := d.max_stock_level
    is_active := d.is_active
    is_trackable := d.is_trackable }

/-- The `UPDATE ... VALUES(**update_data)` applied by
`InventoryService.update_inventory`, including the recomputation of
`available_quantity` when `stock_quantity` or `reserved_quantity`
is among the changed fields (lines 318-332). -/
def applyInventoryUpdate (i : Inventory) (u : InventoryUpdate) : Inventory :=
  { i with
    sku := u.sku.getD i.sku
    name := u.name.getD i.name
    description := match u.description with | some d => some d | none => i.description
    category := match u.category with | some c => some c | none => i.category
    stock_quantity := u.stock_quantity.getD i.stock_quantity
    reserved_quantity := u.reserved_quantity.getD i.reserved_quantity
    available_quantity :=
      if u.stock_quantity.isSome || u.reserved_quantity.isSome then
        u.stock_quantity.getD i.stock_quantity - u.reserved_quantity.getD i.reserved_quantity
      else i.available_quantity
    weight := match u.weight with | some w => some w | none => i.weight
    dimensions := match u.dimensions with | some d => some d | none => i.dimensions
    cost_price := u.cost_price.getD i.cost_price
    min_stock_level := u.min_stock_level.getD i.min_stock_level
    max_stock_level := u.max_stock_level.getD i.max_stock_level
    is_active := u.is_active.getD i.is_active
    is_trackable := u.is_trackable.getD i.is_trackable }

/-- `InventoryService.update_inventory` acting on the fetched row `existing`:
the manual SKU-duplicate pre-check (lines 307-316) raises `IntegrityError`
(modelled as `Except.error`); otherwise the partial update is applied.
`skuEx` models `check_sku_exists` against the rest of the store. -/
def update_inventory (existing : Inventory) (skuEx : String → Bool)
    (u : InventoryUpdate) : Except String Inventory :=
  match u.sku with
  | some s =>
      if s ≠ existing.sku ∧ skuEx s then
        Except.error "IntegrityError: duplicate SKU"
      else Except.ok (applyInventoryUpdate existing u)
  | none => Except.ok (applyInventoryUpdate existing u)

/-- Alert-level bucketing inside `get_low_stock_items` (line 428). -/
def lowStockAlertOf (i : Inventory) : InventoryStockAlert :=
  { id := i.id
    sku := i.sku
    name := i.name
    current_stock := i.available_quantity
    min_stock_level := i.min_stock_level
    shortage_amount := max 0 (i.min_stock_level - i.available_quantity)
    alert_level :=
      if i.available_quantity ≤ 0 then "out_of_stock"
      else if i.available_quantity ≤ i.min_stock_level then "low"
      else "critical" }

/-- `InventoryService.get_low_stock_items` (lines 402-444): filters on
`available_quantity <= threshold` (defaulting to the configured threshold),
restricted to active items, ordered by `available_quantity` ascending. -/
def get_low_stock_items (db : List Inventory) (threshold : Option Int) :
    List InventoryStockAlert :=
  let t := threshold.getD settings_LOW_STOCK_THRESHOLD
  (List.insertionSort (fun a b : Inventory => a.available_quantity ≤ b.available_quantity)
    (db.filter fun i => decide (i.available_quantity ≤ t) && i.is_active)).map lowStockAlertOf

/-- `InventoryService.get_low_stock_inventory_items` (lines 446-465): the
threshold parameter is defaulted but never referenced by the query, which
filters on `stock_quantity <= 0 OR stock_quantity <= min_stock_level`,
restricted to active items, ordered by `stock_quantity` ascending. -/
def get_low_stock_inventory_items (db : List Inventory) (threshold : Option Int) :
    List Inventory :=
  let _t := threshold.getD settings_LOW_STOCK_THRESHOLD
  List.insertionSort (fun a b : Inventory => a.stock_quantity ≤ b.stock_quantity)
    (db.filter fun i =>
      (decide (i.stock_quantity ≤ 0) || decide (i.stock_quantity ≤ i.min_stock_level))
        && i.is_active)

/-! ### Price data model (`app/models/price.py`) -/

/-- A row of the `prices` table. -/
structure Price where
  id : Int
  inventory_id : Int
  selling_price : ℚ
  cost_price : ℚ
  discount_price : Option ℚ
  currency : String
  margin_percent : Option ℚ
  markup_percent : Option ℚ
  is_active : Bool
  requires_approval : Bool
  effective_from : Int
  effective_until : Option Int
  deriving Repr, DecidableEq

/-- `Price.final_price` (price.py line 43):
`self.discount_price if self.discount_price else self.selling_price`.
Python truthiness makes both `None` and `0.0` fall through to
`selling_price`. -/
def Price.final_price (p : Price) : ℚ :=
  match p.discount_price with
  | some d => if d ≠ 0 then d else p.selling_price
  | none => p.selling_price

/-- `Price.calculated_margin` (price.py lines 46-50). The division by
`final_price` is unguarded in the source; `none` models the
`ZeroDivisionError` raised when `cost_price > 0` and `final_price == 0`. -/
def Price.calculated_margin (p : Price) : Option ℚ :=
  if p.cost_price ≤ 0 then some 0
  else if p.final_price = 0 then none
  else some ((p.final_price - p.cost_price) / p.final_price * 100)

/-- A row of the `price_history` table. -/
structure PriceHistory where
  inventory_id : Int
  old_price : ℚ
  new_price : ℚ
  price_change_percent : ℚ
  price_change_amount : ℚ
  change_reason : Option String
  change_type : String
  changed_at : Int
  deriving Repr, DecidableEq

/-! ### Price schemas (`app/schemas/price.py`) -/

/-- `PriceCreate`: payload of `create_or_update_price` (validated:
`selling_price > 0`, `cost_price ≥ 0`, `discount_price > 0` when given;
`is_active` defaults to `True` but is caller-settable). -/
structure PriceCreateData where
  inventory_id : Int
  selling_price : ℚ
  cost_price : ℚ
  discount_price : Option ℚ
  currency : String
  margin_percent : Option ℚ
  markup_percent : Option ℚ
  is_active : Bool
  requires_approval : Bool
  deriving Repr, DecidableEq

/-- `PriceUpdate`: partial-update payload of `update_price`; `none` models
a field absent from `model_dump(exclude_unset=True)`. -/
structure PriceUpdateData where
  selling_price : Option ℚ
  cost_price : Option ℚ
  discount_price : Option ℚ
  currency : Option String
  margin_percent : Option ℚ
  markup_percent : Option ℚ
  is_active : Option Bool
  requires_approval : Option Bool
  change_reason : Option String
  deriving Repr, DecidableEq

/-- The `PriceChangeAlert` emitted by `_send_price_change_alert`. -/
structure PriceAlert where
  inventory_id : Int
  sku : String
  item_name : String
  old_price : ℚ
  new_price : ℚ
  change_percent : ℚ
  change_amount : ℚ
  alert_type : String
  timestamp : Int
  deriving Repr, DecidableEq

/-! ### Price service (`app/services/price_service.py`) -/

/-- State of the price store threaded through the service: the `prices`
and `price_history` tables plus the next auto-increment price id. -/
structure PriceDB where
  prices : List Price
  history : List PriceHistory
  nextId : Int
  deriving Repr, DecidableEq

/-- Active price rows for an item (`is_active = True`). -/
def activePricesFor (ps : List Price) (item_id : Int) : List Price :=
  ps.filter fun p => p.inventory_id == item_id && p.is_active

/-- `PriceService.get_current_price` (lines 159-188) restricted to its
database query: active rows for the item with `effective_from <= now`,
`ORDER BY effective_from DESC LIMIT 1` (ties broken towards the highest id,
the natural order of insertion). -/
def get_current_price (ps : List Price) (item_id now : Int) : Option Price :=
  (ps.filter fun p =>
      p.inventory_id == item_id && p.is_active && decide (p.effective_from ≤ now)).foldl
    (fun acc p =>
      match acc with
      | none => some p
      | some q =>
          if q.effective_from < p.effective_from
              || (q.effective_from == p.effective_from && q.id < p.id) then some p
          else some q)
    none

/-- `PriceService._record_price_history` (lines 435-486): builds the
appended `PriceHistory` row, with the zero-division guard
`(amount / old_price * 100) if old_price > 0 else 0`. -/
def _record_price_history (inventory_id : Int) (old_price new_price : ℚ)
    (change_reason : Option String) (change_type : String) (now : Int) : PriceHistory :=
  let price_change_amount := new_price - old_price
  { inventory_id
    old_price
    new_price
    price_change_percent :=
      if 0 < old_price then price_change_amount / old_price * 100 else 0
    price_change_amount
    change_reason
    change_type
    changed_at := now }

/-- `PriceService._send_price_change_alert` (lines 567-627): classifies and
builds the alert payload from the old/new selling prices and the (absolute)
percent change computed at the call site. -/
def _send_price_change_alert (old_selling new_selling : ℚ) (inventory_id : Int)
    (change_percent : ℚ) (now : Int) : PriceAlert :=
  { inventory_id
    sku := "ITEM-" ++ toString inventory_id
    item_name := "Item Name"
    old_price := old_selling
    new_price := new_selling
    change_percent
    change_amount := new_selling - old_selling
    alert_type :=
      if 20 ≤ change_percent then "major_change"
      else if old_selling < new_selling then "significant_increase"
      else "significant_decrease"
    timestamp := now }

/-- The new `Price` row built by `create_or_update_price` from the payload;
`effective_from` comes from the `server_default=func.now()` column default. -/
def mkNewPrice (nid : Int) (d : PriceCreateData) (now : Int) : Price :=
  { id := nid
    inventory_id := d.inventory_id
    selling_price := d.selling_price
    cost_price := d.cost_price
    discount_price := d.discount_price
    currency := d.currency
    margin_percent := d.margin_percent
    markup_percent := d.markup_percent
    is_active := d.is_active
    requires_approval := d.requires_approval
    effective_from := now
    effective_until := none }

/-- `PriceService.create_or_update_price` (lines 190-270). Returns the new
store state, the created row, and the price-change alerts emitted during the
call. When a prior current price exists its row is deactivated
(`is_active = False`, `effective_until = now`), a history row is recorded,
and an alert is sent when `abs((new - old) / old * 100)` reaches
`settings.PRICE_CHANGE_THRESHOLD * 100`; that division is unguarded, so a
prior selling price of exactly 0 raises `ZeroDivisionError`
(`Except.error`; the partially committed crash state is not represented). -/
def create_or_update_price (db : PriceDB) (d : PriceCreateData) (now : Int) :
    Except String (PriceDB × Price × List PriceAlert) :=
  match get_current_price db.prices d.inventory_id now with
  | none =>
      let newP := mkNewPrice db.nextId d now
      Except.ok
        ({ prices := db.prices ++ [newP], history := db.history, nextId := db.nextId + 1 },
          newP, [])
  | some ex =>
      if ex.selling_price = 0 then Except.error "ZeroDivisionError"
      else
        let newP := mkNewPrice db.nextId d now
        let deactivated := db.prices.map fun p =>
          if p.id == ex.id then { p with is_active := false, effective_until := some now }
          else p
        let hist := _record_price_history d.inventory_id ex.selling_price d.selling_price
          (some "manual_update") "manual" now
        let pct := |(d.selling_price - ex.selling_price) / ex.selling_price * 100|
        let alerts :=
          if settings_PRICE_CHANGE_THRESHOLD * 100 ≤ pct then
            [_send_price_change_alert ex.selling_price d.selling_price d.inventory_id pct now]
          else []
        Except.ok
          ({ prices := deactivated ++ [newP], history := db.history ++ [hist],
             nextId := db.nextId + 1 },
            newP, alerts)

/-- The `UPDATE ... VALUES(**update_data)` applied by
`PriceService.update_price` to the current price row. -/
def applyPriceUpdate (p : Price) (u : PriceUpdateData) : Price :=
  { p with
    selling_price := u.selling_price.getD p.selling_price
    cost_price := u.cost_price.getD p.cost_price
    discount_price := match u.discount_price with | some d => some d | none => p.discount_price
    currency := u.currency.getD p.currency
    margin_percent := match u.margin_percent with | some m => some m | none => p.margin_percent
    markup_percent := match u.markup_percent with | some m => some m | none => p.markup_percent
    is_active := u.is_active.getD p.is_active
    requires_approval := u.requires_approval.getD p.requires_approval }

/-- `PriceService.update_price` (lines 272-320): mutates the current active
price row in place; when `selling_price` is among the changed fields it
records a history row (reason `price_update.change_reason or "price_update"`)
and evaluates the same alert condition as `create_or_update_price`
(again with an unguarded division by the old selling price). -/
def update_price (db : PriceDB) (item_id : Int) (u : PriceUpdateData) (now : Int) :
    Except String (PriceDB × Option Price × List PriceAlert) :=
  match get_current_price db.prices item_id now with
  | none => Except.ok (db, none, [])
  | some cur =>
      let old_price := cur.selling_price
      let updated := applyPriceUpdate cur u
      let upd := db.prices.map fun p => if p.id == cur.id then applyPriceUpdate p u else p
      if u.selling_price.isSome then
        if old_price = 0 then Except.error "ZeroDivisionError"
        else
          let reason := match u.change_reason with
            | some r => if r = "" then "price_update" else r
            | none => "price_update"
          let hist := _record_price_history item_id old_price updated.selling_price
            (some reason) "manual" now
          let pct := |(updated.selling_price - old_price) / old_price * 100|
          let alerts :=
            if settings_PRICE_CHANGE_THRESHOLD * 100 ≤ pct then
              [_send_price_change_alert old_price updated.selling_price item_id pct now]
            else []
          Except.ok ({ db with prices := upd, history := db.history ++ [hist] },
            some updated, alerts)
      else
        Except.ok ({ db with prices := upd }, some updated, [])

/-- `PriceService.get_significant_price_changes` (lines 419-433): rows since
`start_date` whose signed `price_change_percent` is at least
`threshold_percent`, ordered by `price_change_percent` descending. -/
def get_significant_price_changes (hist : List PriceHistory)
    (threshold_percent : ℚ) (start_date : Int) : List PriceHistory :=
  List.insertionSort
    (fun a b : PriceHistory => b.price_change_percent ≤ a.price_change_percent)
    (hist.filter fun h =>
      decide (start_date ≤ h.changed_at) && decide (threshold_percent ≤ h.price_change_percent))

/-! ### Cache layer (`app/core/redis_client.py`) -/

/-- `RedisManager.get_cache` (lines 64-74). The external pieces are
parameters: `store` is the key-value store (`client.get`), `parse` is
`json.loads` returning `none` on a `JSONDecodeError`. Result: the value
returned to the caller paired with whether the decode-failure warning was
logged. An empty stored string is falsy in Python and short-circuits the
`if cached_value:` test. -/
def get_cache {α : Type} (parse : String → Option α) (store : String → Option String)
    (key : String) : Option α × Bool :=
  match store key with
  | some s =>
      if s = "" then (none, false)
      else
        match parse s with
        | some v => (some v, false)
        | none => (none, true)
  | none => (none, false)

/-! ### Connection manager (`app/services/websocket_manager.py`) -/

/-- A WebSocket connection: `id` models object identity, `sendOk` whether
`send_text` succeeds or raises for this peer. -/
structure WSConn where
  id : Int
  sendOk : Bool
  deriving Repr, DecidableEq

/-- The `active_connections` dict: insertion-ordered `type -> connections`. -/
abbrev ConnEntries := List (String × List WSConn)

/-- `ConnectionManager.disconnect` (lines 177-183): scan the registries in
dict order, remove the first occurrence of the connection from the first
registry containing it, then stop. -/
def disconnect (entries : ConnEntries) (w : WSConn) : ConnEntries :=
  match entries with
  | [] => []
  | (t, cs) :: rest =>
      if cs.any fun c => c.id == w.id then
        (t, cs.eraseP fun c => c.id == w.id) :: rest
      else
        (t, cs) :: disconnect rest w

/-- `ConnectionManager.broadcast_to_type` (lines 226-248): missing type is a
no-op; otherwise snapshot the group, attempt each send (a raise is caught,
the connection collected), then disconnect every failed connection. Returns
the new registries, the connections the message was delivered to, and the
`disconnected` list (whose length is the tallied `failed_sends`;
`successful_sends` is the snapshot length minus it). -/
def broadcast_to_type (entries : ConnEntries) (t : String) :
    ConnEntries × List WSConn × List WSConn :=
  match entries.find? fun e => e.1 == t with
  | none => (entries, [], [])
  | some (_, conns) =>
      let disconnected := conns.filter fun c => !c.sendOk
      let delivered := conns.filter fun c => c.sendOk
      let entries' := disconnected.foldl (fun es w => disconnect es w) entries
      (entries', delivered, disconnected)

/-! ### Concrete rows used by witnesses and counterexamples -/

/-- Sample stored inventory row satisfying the stock invariant. -/
def wItem : Inventory :=
  { id := 1, sku := "PROD-001", name := "Widget", description := none, category := none
    stock_quantity := 50, reserved_quantity := 5, available_quantity := 45
    weight := none, dimensions := none, cost_price := 8000, min_stock_level := 10
    max_stock_level := 200, is_active := true, is_trackable := true }

/-- Sample create payload. -/
def wCreate : InventoryCreate :=
  { sku := "PROD-002", name := "Gadget", description := none, category := none
    weight := none, dimensions := none, cost_price := 100, min_stock_level := 10
    max_stock_level := 1000, is_active := true, is_trackable := true
    stock_quantity := 50, reserved_quantity := 5 }

/-- Sample partial update touching `stock_quantity` only. -/
def wUpd : InventoryUpdate :=
  { sku := none, name := none, description := none, category := none
    stock_quantity := some 8, reserved_quantity := none, weight := none
    dimensions := none, cost_price := none, min_stock_level := none
    max_stock_level := none, is_active := none, is_trackable := none }

/-- Price row with `cost_price > 0` and `selling_price = 0` (no discount):
`calculated_margin` divides by `final_price = 0`. -/
def marginCrashPrice : Price :=
  { id := 1, inventory_id := 1, selling_price := 0, cost_price := 100
    discount_price := none, currency := "JPY", margin_percent := none
    markup_percent := none, is_active := true, requires_approval := false
    effective_from := 0, effective_until := none }

/-- Price row with a discount price explicitly set to `0`. -/
def zeroDiscountPrice : Price :=
  { id := 2, inventory_id := 1, selling_price := 500, cost_price := 100
    discount_price := some 0, currency := "JPY", margin_percent := none
    markup_percent := none, is_active := true, requires_approval := false
    effective_from := 0, effective_until := none }

/-! ### C1 — inventory quantity invariant -/

/-- C1. After a successful `create_inventory` with stock `S ≥ 0` and reserved
`R ≥ 0` the stored row has `available_quantity = S - R` exactly; a successful
`update_inventory` that changes `stock_quantity` or `reserved_quantity`
recomputes `available_quantity` as the new stock minus the new reserved, and
every successful update preserves the invariant
`available_quantity = stock_quantity - reserved_quantity`. -/
theorem available_quantity_invariant
    (d : InventoryCreate) (nid : Int)
    (hS : 0 ≤ d.stock_quantity) (hR : 0 ≤ d.reserved_quantity)
    (existing : Inventory) (skuEx : String → Bool) (u : InventoryUpdate)
    (item : Inventory)
    (hinv : existing.available_quantity =
      existing.stock_quantity - existing.reserved_quantity)
    (hupd : update_inventory existing skuEx u = Except.ok item) :
    (create_inventory d nid).available_quantity = d.stock_quantity - d.reserved_quantity
      ∧ item.available_quantity = item.stock_quantity - item.reserved_quantity
      ∧ ((u.stock_quantity.isSome ∨ u.reserved_quantity.isSome) →
          item.available_quantity =
            u.stock_quantity.getD existing.stock_quantity
              - u.reserved_quantity.getD existing.reserved_quantity) := by
  have hitem : item = applyInventoryUpdate existing u := by
    unfold update_inventory at hupd
    cases hsku : u.sku with
    | none =>
        rw [hsku] at hupd
        exact (Except.ok.injEq _ _ ▸ hupd).symm
    | some s =>
        rw [hsku] at hupd
        by_cases hc : s ≠ existing.sku ∧ skuEx s = true
        · simp [hc] at hupd
        · simp only [if_neg hc, Except.ok.injEq] at hupd
          exact hupd.symm
  subst hitem
  refine ⟨rfl, ?_, ?_⟩
  · cases hs : u.stock_quantity with
    | some v => simp [applyInventoryUpdate, hs]
    | none =>
        cases hr : u.reserved_quantity with
        | some w => simp [applyInventoryUpdate, hs, hr]
        | none => simp [applyInventoryUpdate, hs, hr, hinv]
  · intro hsome
    cases hs : u.stock_quantity with
    | some v => simp [applyInventoryUpdate, hs]
    | none =>
        cases hr : u.reserved_quantity with
        | some w => simp [applyInventoryUpdate, hs, hr]
        | none => rw [hs, hr] at hsome; simp at hsome

/-- C1 witness: concrete successful update (stock 50→8, reserved 5 kept)
yields `available_quantity = 3 = 8 - 5`. -/
theorem available_quantity_invariant_witness :
    ∃ item, update_inventory wItem (fun _ => false) wUpd = Except.ok item
      ∧ item.available_quantity = item.stock_quantity - item.reserved_quantity := by
  refine ⟨applyInventoryUpdate wItem wUpd, rfl, ?_⟩
  exact (available_quantity_invariant wCreate 2 (by decide) (by decide)
    wItem (fun _ => false) wUpd _ (by decide) rfl).2.1

/-! ### C5 — `calculated_margin` totality -/

/-- C5 (amended). `calculated_margin` returns 0 whenever `cost_price ≤ 0`,
and for `cost_price > 0` it returns `(final_price - cost_price) / final_price
* 100` whenever `final_price ≠ 0`; but the `cost_price ≤ 0` guard is not
sufficient for totality: when `cost_price > 0` and `final_price = 0` the
division raises `ZeroDivisionError` (modelled as `none`). -/
theorem calculated_margin_spec (p : Price) :
    (p.cost_price ≤ 0 → p.calculated_margin = some 0)
      ∧ (0 < p.cost_price → p.final_price ≠ 0 →
          p.calculated_margin =
            some ((p.final_price - p.cost_price) / p.final_price * 100))
      ∧ (0 < p.cost_price → p.final_price = 0 → p.calculated_margin = none) := by
  refine ⟨?_, ?_, ?_⟩
  · intro h
    simp [Price.calculated_margin, h]
  · intro hc hf
    rw [Price.calculated_margin, if_neg (by linarith), if_neg hf]
  · intro hc hf
    rw [Price.calculated_margin, if_neg (by linarith), if_pos hf]

/-- C5 witness: on a regular row (selling 500, cost 100, no discount) the
margin evaluates to 80%. -/
theorem calculated_margin_spec_witness :
    ∃ v, Price.calculated_margin
        { marginCrashPrice with selling_price := 500 } = some v ∧ v = 80 := by
  refine ⟨_, (calculated_margin_spec _).2.1 (by norm_num [marginCrashPrice])
    (by norm_num [marginCrashPrice, Price.final_price]), ?_⟩
  norm_num [marginCrashPrice, Price.final_price]

/-- C5 counterexample: with `cost_price = 100 > 0` and `selling_price = 0`
(no discount), `final_price = 0` and the division raises — evaluation of
`calculated_margin` produces no value, so the guard is not sufficient for
all inputs. -/
theorem calculated_margin_crash :
    0 < marginCrashPrice.cost_price ∧ marginCrashPrice.calculated_margin = none := by
  decide

/-! ### C6 — `final_price` selection -/

/-- C6 (amended). `final_price` equals `discount_price` whenever
`discount_price` is set *and non-zero*; it equals `selling_price` when
`discount_price` is unset — and also, by Python truthiness, when
`discount_price` is set to exactly 0. -/
theorem final_price_spec (p : Price) :
    (∀ dp : ℚ, p.discount_price = some dp → dp ≠ 0 → p.final_price = dp)
      ∧ (p.discount_price = none → p.final_price = p.selling_price)
      ∧ (p.discount_price = some 0 → p.final_price = p.selling_price) := by
  refine ⟨?_, ?_, ?_⟩
  · intro dp hdp hne
    simp [Price.final_price, hdp, hne]
  · intro h
    simp [Price.final_price, h]
  · intro h
    simp [Price.final_price, h]

/-- C6 witness: a non-zero discount (250 on selling 500) is selected. -/
theorem final_price_spec_witness :
    Price.final_price { zeroDiscountPrice with discount_price := some 250 } = 250 :=
  (final_price_spec _).1 250 rfl (by norm_num)

/-- C6 counterexample: with `discount_price` set to `0` (non-null) and
`selling_price = 500`, `final_price` is 500 — the selling price, not the
discount price — refuting the claim for a discount price of 0. -/
theorem final_price_zero_discount :
    zeroDiscountPrice.discount_price = some 0
      ∧ zeroDiscountPrice.final_price = 500
      ∧ zeroDiscountPrice.final_price ≠ 0 := by
  decide

/-! ### C7 — stock status trichotomy -/

/-- C7. For `min_stock_level ≥ 0` (guaranteed by schema validation `ge=0`):
`stock_status` is `out_of_stock` iff `available_quantity ≤ 0`, `low_stock`
iff `0 < available_quantity ≤ min_stock_level`, `in_stock` iff
`available_quantity > min_stock_level`; the three cases are exhaustive and
mutually exclusive (the characterizations partition the integers), and
`is_low_stock` holds iff `available_quantity ≤ min_stock_level`. -/
theorem stock_status_trichotomy (i : Inventory) (hmin : 0 ≤ i.min_stock_level) :
    (i.stock_status = "out_of_stock" ↔ i.available_quantity ≤ 0)
      ∧ (i.stock_status = "low_stock" ↔
          0 < i.available_quantity ∧ i.available_quantity ≤ i.min_stock_level)
      ∧ (i.stock_status = "in_stock" ↔ i.min_stock_level < i.available_quantity)
      ∧ (i.stock_status = "out_of_stock" ∨ i.stock_status = "low_stock"
          ∨ i.stock_status = "in_stock")
      ∧ (i.is_low_stock = true ↔ i.available_quantity ≤ i.min_stock_level) := by
  unfold Inventory.stock_status Inventory.is_low_stock
  split_ifs with h1 h2 <;> simp_all <;> omega

/-- C7 witness: the sample row (available 45, min 10) is `in_stock` and not
low stock. -/
theorem stock_status_trichotomy_witness :
    wItem.stock_status = "in_stock" ∧ wItem.is_low_stock = false := by
  have h := stock_status_trichotomy wItem (by decide)
  exact ⟨h.2.2.1.mpr (by decide), by decide⟩

/-! ### C9 — cache read on malformed JSON -/

/-- C9 (amended). If the stored value under a key is present but fails to
parse as JSON, `get_cache` returns the cache-miss result `none` and never
propagates the decode error (the function is total, matching the
`except JSONDecodeError` handler); the decode-failure warning, however, is
logged exactly when the stored string is non-empty — an empty stored string
is falsy in Python, short-circuits `if cached_value:` and returns `None`
without reaching the parser, hence without the claimed warning. -/
theorem get_cache_malformed {α : Type} (parse : String → Option α)
    (store : String → Option String) (key s : String)
    (hs : store key = some s) (hbad : parse s = none) :
    (get_cache parse store key).1 = none
      ∧ (s ≠ "" → get_cache parse store key = (none, true))
      ∧ (s = "" → get_cache parse store key = (none, false)) := by
  refine ⟨?_, ?_, ?_⟩
  · by_cases he : s = ""
    · simp [get_cache, hs, he]
    · simp [get_cache, hs, he, hbad]
  · intro hne
    simp [get_cache, hs, hne, hbad]
  · intro he
    simp [get_cache, hs, he]

/-- C9 witness: a store holding a non-empty unparsable string under every
key gives the cache-miss result with the warning logged. -/
theorem get_cache_malformed_witness :
    get_cache (fun _ => (none : Option Nat)) (fun _ => some "not json") "inventory:item:1"
      = (none, true) :=
  (get_cache_malformed (fun _ => (none : Option Nat)) (fun _ => some "not json")
    "inventory:item:1" "not json" rfl rfl).2.1 (by decide)

/-- C9 counterexample: the empty string is a present stored value that is
not valid JSON (`json.loads("")` raises `JSONDecodeError`), yet `get_cache`
returns `None` *without* the claimed warning: `""` is falsy in Python, so
`if cached_value:` short-circuits before the parse is ever attempted. -/
theorem get_cache_empty_string_no_warning :
    get_cache (fun _ => (none : Option Nat)) (fun _ => some "") "inventory:item:1"
      = (none, false) := rfl

/-! ### C10 — threshold-independence of `get_low_stock_inventory_items` -/

/-- C10. `get_low_stock_inventory_items` is constant in its threshold
argument — any two thresholds (including `none`) give identical results on
the same store, because the query never references the parameter — whereas
`get_low_stock_items` does depend on its threshold. -/
theorem low_stock_inventory_items_threshold_independent :
    (∀ (db : List Inventory) (t1 t2 : Option Int),
        get_low_stock_inventory_items db t1 = get_low_stock_inventory_items db t2)
      ∧ (∃ (db : List Inventory) (t1 t2 : Option Int),
          get_low_stock_items db t1 ≠ get_low_stock_items db t2) := by
  refine ⟨fun db t1 t2 => rfl, ⟨[wItem], some 44, some 45, ?_⟩⟩
  decide

/-! ### C3 — significant price changes use the signed percent -/

instance : IsTotal PriceHistory
    (fun a b : PriceHistory => b.price_change_percent ≤ a.price_change_percent) :=
  ⟨fun a b => le_total b.price_change_percent a.price_change_percent⟩

instance : IsTrans PriceHistory
    (fun a b : PriceHistory => b.price_change_percent ≤ a.price_change_percent) :=
  ⟨fun _ _ _ hab hbc => le_trans hbc hab⟩

/-- History row recording a 25% price drop (signed percent -25). -/
def wHistNeg : PriceHistory :=
  { inventory_id := 1, old_price := 12000, new_price := 9000
    price_change_percent := -25, price_change_amount := -3000
    change_reason := none, change_type := "manual", changed_at := 5 }

/-- History row recording a 25% price increase. -/
def wHistPos : PriceHistory :=
  { inventory_id := 1, old_price := 9000, new_price := 11250
    price_change_percent := 25, price_change_amount := 2250
    change_reason := none, change_type := "manual", changed_at := 6 }

/-- C3. `get_significant_price_changes` returns exactly the history rows
with `changed_at ≥ start_date` whose *signed* `price_change_percent` is at
least the threshold, ordered by `price_change_percent` descending;
consequently, for a positive threshold every returned row has a strictly
positive percent, so any row recording a price drop (negative percent) is
excluded. -/
theorem significant_changes_signed (hist : List PriceHistory)
    (t : ℚ) (s : Int) :
    (get_significant_price_changes hist t s).Perm
        (hist.filter fun h =>
          decide (s ≤ h.changed_at) && decide (t ≤ h.price_change_percent))
      ∧ (get_significant_price_changes hist t s).Sorted
          (fun a b => b.price_change_percent ≤ a.price_change_percent)
      ∧ (0 < t → ∀ r ∈ get_significant_price_changes hist t s,
          0 < r.price_change_percent)
      ∧ (0 < t → ∀ r ∈ hist, r.price_change_percent < 0 →
          r ∉ get_significant_price_changes hist t s) := by
  refine ⟨List.perm_insertionSort _ _, List.sorted_insertionSort _ _, ?_, ?_⟩
  · intro ht r hr
    have hmem := (List.perm_insertionSort
      (fun a b : PriceHistory => b.price_change_percent ≤ a.price_change_percent)
      _).mem_iff.mp hr
    have := (List.mem_filter.mp hmem).2
    simp only [Bool.and_eq_true, decide_eq_true_eq] at this
    linarith [this.2]
  · intro ht r _ hneg hr
    have hmem := (List.perm_insertionSort
      (fun a b : PriceHistory => b.price_change_percent ≤ a.price_change_percent)
      _).mem_iff.mp hr
    have := (List.mem_filter.mp hmem).2
    simp only [Bool.and_eq_true, decide_eq_true_eq] at this
    linarith [this.2]

/-- C3 witness: with threshold 10%, every row returned over a history
containing a -25% drop and a +25% rise has positive percent (the drop is
excluded). -/
theorem significant_changes_signed_witness :
    ∀ r ∈ get_significant_price_changes [wHistNeg, wHistPos] 10 0,
      0 < r.price_change_percent :=
  (significant_changes_signed [wHistNeg, wHistPos] 10 0).2.2.1 (by norm_num)

/-! ### C2 — append policy of `create_or_update_price` -/

/-- Any row of the store satisfying the active-for-item predicate equals the
unique active row. -/
theorem activePricesFor_unique_mem {ps : List Price} {item : Int} {ex p : Price}
    (hactive : activePricesFor ps item = [ex]) (hp : p ∈ ps)
    (hpred : (p.inventory_id == item && p.is_active) = true) : p = ex := by
  have hmem : p ∈ activePricesFor ps item := List.mem_filter.mpr ⟨hp, hpred⟩
  rw [hactive] at hmem
  simpa using hmem

/-- When the store holds exactly one active row for the item and that row is
already effective, `get_current_price` selects it. -/
theorem get_current_of_unique_active {ps : List Price} {item now : Int} {ex : Price}
    (hactive : activePricesFor ps item = [ex]) (heff : ex.effective_from ≤ now) :
    get_current_price ps item now = some ex := by
  have hcomm : (fun p : Price =>
      p.inventory_id == item && p.is_active && decide (p.effective_from ≤ now))
      = fun p : Price =>
          decide (p.effective_from ≤ now) && (p.inventory_id == item && p.is_active) := by
    funext p
    exact Bool.and_comm _ _
  have hf : (ps.filter fun p =>
      p.inventory_id == item && p.is_active && decide (p.effective_from ≤ now)) = [ex] := by
    rw [hcomm, ← List.filter_filter]
    have heq : ps.filter (fun p => p.inventory_id == item && p.is_active)
        = activePricesFor ps item := rfl
    rw [heq, hactive]
    simp [heff]
  unfold get_current_price
  rw [hf]
  rfl

/-- C2 (amended). On an item with exactly one active price row (already
effective, with the schema-validated positive selling price), a
`create_or_update_price` call *whose payload keeps the default
`is_active = true`* leaves exactly one active price row — the new one — and
appends exactly one `PriceHistory` row with `old_price` = prior selling
price, `new_price` = new selling price, `price_change_amount = new - old`
and `price_change_percent = (new - old) / old * 100` (the recording helper
returns percent 0 whenever `old ≤ 0`). With `is_active = false` in the
payload the post-call active-row count is 0, not 1 (see the
counterexample). -/
theorem create_or_update_price_append
    (db : PriceDB) (d : PriceCreateData) (now : Int) (ex : Price)
    (hactive : activePricesFor db.prices d.inventory_id = [ex])
    (heff : ex.effective_from ≤ now)
    (hpos : 0 < ex.selling_price)
    (hact : d.is_active = true) :
    ∃ st newP alerts h,
      create_or_update_price db d now = Except.ok (st, newP, alerts)
        ∧ activePricesFor st.prices d.inventory_id = [newP]
        ∧ st.history = db.history ++ [h]
        ∧ h.old_price = ex.selling_price
        ∧ h.new_price = d.selling_price
        ∧ h.price_change_amount = d.selling_price - ex.selling_price
        ∧ h.price_change_percent
            = (d.selling_price - ex.selling_price) / ex.selling_price * 100
        ∧ (∀ (i : Int) (o n : ℚ) (r : Option String) (ty : String) (ts : Int),
            o ≤ 0 → (_record_price_history i o n r ty ts).price_change_percent = 0) := by
  have hcur := get_current_of_unique_active hactive heff
  unfold create_or_update_price
  simp only [hcur]
  rw [if_neg hpos.ne']
  refine ⟨_, _, _, _, rfl, ?_, rfl, rfl, rfl, rfl, ?_, ?_⟩
  · unfold activePricesFor
    rw [List.filter_append]
    have hnil : ((db.prices.map fun p =>
        if p.id == ex.id then { p with is_active := false, effective_until := some now }
        else p).filter
          fun p => p.inventory_id == d.inventory_id && p.is_active) = [] := by
      rw [List.filter_eq_nil_iff]
      intro q hq
      obtain ⟨p, hp, rfl⟩ := List.mem_map.mp hq
      by_cases hid : (p.id == ex.id) = true
      · simp [hid]
      · simp only [hid, if_neg, Bool.false_eq_true, ite_false]
        intro hpred
        have hpe := activePricesFor_unique_mem hactive hp hpred
        subst hpe
        simp at hid
    rw [hnil]
    simp [mkNewPrice, hact]
  · simp [_record_price_history, hpos]
  · intro i o n r ty ts ho
    simp [_record_price_history, not_lt.mpr ho]

/-- Active current price row used by the C2 witness and counterexample. -/
def ceOldPrice : Price :=
  { id := 1, inventory_id := 1, selling_price := 100, cost_price := 50
    discount_price := none, currency := "JPY", margin_percent := none
    markup_percent := none, is_active := true, requires_approval := false
    effective_from := 0, effective_until := none }

/-- Store with exactly one active price row for item 1. -/
def ceDB : PriceDB := { prices := [ceOldPrice], history := [], nextId := 2 }

/-- Payload for item 1 with the default `is_active = true`. -/
def cePayloadActive : PriceCreateData :=
  { inventory_id := 1, selling_price := 90, cost_price := 50
    discount_price := none, currency := "JPY", margin_percent := none
    markup_percent := none, is_active := true, requires_approval := false }

/-- The same payload with `is_active = false` (accepted by the schema). -/
def cePayloadInactive : PriceCreateData := { cePayloadActive with is_active := false }

/-- C2 witness: on the concrete store the amended theorem applies and the
post-call state again has exactly one active row. -/
theorem create_or_update_price_append_witness :
    ∃ st newP alerts h,
      create_or_update_price ceDB cePayloadActive 10 = Except.ok (st, newP, alerts)
        ∧ activePricesFor st.prices 1 = [newP]
        ∧ st.history = [h] ∧ h.old_price = 100 ∧ h.new_price = 90 := by
  obtain ⟨st, newP, alerts, h, h1, h2, h3, h4, h5, -⟩ :=
    create_or_update_price_append ceDB cePayloadActive 10 ceOldPrice
      (by decide) (by decide) (by norm_num [ceOldPrice]) rfl
  exact ⟨st, newP, alerts, h, h1, h2, h3, h4, h5⟩

/-- C2 counterexample: the same call with `is_active = false` in the payload
results in *zero* active price rows for the item, refuting "always exactly
one active price row post-call". -/
theorem create_or_update_price_inactive_payload :
    activePricesFor ceDB.prices 1 = [ceOldPrice]
      ∧ ∃ st p alerts,
          create_or_update_price ceDB cePayloadInactive 10 = Except.ok (st, p, alerts)
            ∧ activePricesFor st.prices 1 = [] := by
  refine ⟨by decide, _, _, _, rfl, ?_⟩
  decide

/-! ### C4 — price-change alert condition and classification -/

/-- C4. On both mutation paths a price-change alert is emitted iff a prior
current price exists and the absolute percent change reaches
`settings.PRICE_CHANGE_THRESHOLD * 100`; an emitted alert is classified
`major_change` when the (absolute) percent is ≥ 20, else
`significant_increase` when the new selling price exceeds the old, else
`significant_decrease`. Prior selling prices are schema-validated positive
(`gt=0`), hence the `0 < selling_price` hypotheses. -/
theorem price_change_alert_condition
    (db : PriceDB) (d : PriceCreateData) (item_id now : Int) (u : PriceUpdateData) :
    (get_current_price db.prices d.inventory_id now = none →
        ∃ st p, create_or_update_price db d now = Except.ok (st, p, []))
      ∧ (get_current_price db.prices item_id now = none →
          update_price db item_id u now = Except.ok (db, none, []))
      ∧ (∀ ex, get_current_price db.prices d.inventory_id now = some ex →
          0 < ex.selling_price →
          ∃ st p alerts,
            create_or_update_price db d now = Except.ok (st, p, alerts)
              ∧ (alerts ≠ [] ↔
                  settings_PRICE_CHANGE_THRESHOLD * 100 ≤
                    |(d.selling_price - ex.selling_price) / ex.selling_price * 100|)
              ∧ (∀ a ∈ alerts, a.alert_type =
                  if 20 ≤ |(d.selling_price - ex.selling_price) / ex.selling_price * 100|
                  then "major_change"
                  else if ex.selling_price < d.selling_price then "significant_increase"
                  else "significant_decrease"))
      ∧ (∀ cur, get_current_price db.prices item_id now = some cur →
          0 < cur.selling_price →
          ∃ st p alerts,
            update_price db item_id u now = Except.ok (st, p, alerts)
              ∧ (alerts ≠ [] ↔
                  settings_PRICE_CHANGE_THRESHOLD * 100 ≤
                    |(u.selling_price.getD cur.selling_price - cur.selling_price)
                        / cur.selling_price * 100|)
              ∧ (∀ a ∈ alerts, a.alert_type =
                  if 20 ≤ |(u.selling_price.getD cur.selling_price - cur.selling_price)
                      / cur.selling_price * 100|
                  then "major_change"
                  else if cur.selling_price < u.selling_price.getD cur.selling_price
                  then "significant_increase"
                  else "significant_decrease")) := by
  refine ⟨?_, ?_, ?_, ?_⟩
  · intro hnone
    unfold create_or_update_price
    simp only [hnone]
    exact ⟨_, _, rfl⟩
  · intro hnone
    unfold update_price
    simp only [hnone]
  · intro ex hcur hpos
    unfold create_or_update_price
    simp only [hcur]
    rw [if_neg hpos.ne']
    refine ⟨_, _, _, rfl, ?_, ?_⟩
    · by_cases hth : settings_PRICE_CHANGE_THRESHOLD * 100 ≤
        |(d.selling_price - ex.selling_price) / ex.selling_price * 100|
      · simp [hth]
      · simp [hth]
    · intro a ha
      by_cases hth : settings_PRICE_CHANGE_THRESHOLD * 100 ≤
        |(d.selling_price - ex.selling_price) / ex.selling_price * 100|
      · rw [if_pos hth] at ha
        simp only [List.mem_singleton] at ha
        subst ha
        rfl
      · rw [if_neg hth] at ha
        simp at ha
  · intro cur hcur hpos
    unfold update_price
    simp only [hcur]
    cases hsell : u.selling_price with
    | none =>
        simp only [hsell, Option.isSome_none, Bool.false_eq_true, if_false]
        refine ⟨_, _, _, rfl, ?_, ?_⟩
        · simp only [ne_eq, not_true_eq_false, false_iff, Option.getD_none]
          rw [sub_self, zero_div, zero_mul, abs_zero]
          norm_num [settings_PRICE_CHANGE_THRESHOLD]
        · intro a ha
          simp at ha
    | some v =>
        simp only [hsell, Option.isSome_some, if_true]
        rw [if_neg hpos.ne']
        have hnew : (applyPriceUpdate cur u).selling_price = v := by
          simp [applyPriceUpdate, hsell]
        refine ⟨_, _, _, rfl, ?_, ?_⟩
        · rw [hnew]
          simp only [hsell, Option.getD_some]
          by_cases hth : settings_PRICE_CHANGE_THRESHOLD * 100 ≤
            |(v - cur.selling_price) / cur.selling_price * 100|
          · simp [hth]
          · simp [hth]
        · intro a ha
          rw [hnew] at ha
          simp only [hsell, Option.getD_some]
          by_cases hth : settings_PRICE_CHANGE_THRESHOLD * 100 ≤
            |(v - cur.selling_price) / cur.selling_price * 100|
          · rw [if_pos hth] at ha
            simp only [List.mem_singleton] at ha
            subst ha
            simp [_send_price_change_alert, hnew]
          · rw [if_neg hth] at ha
            simp at ha

/-- C4 witness: selling price 100 → 90 (10% drop, threshold 5%) emits
exactly one alert of type `significant_decrease`. -/
theorem price_change_alert_condition_witness :
    ∃ st p alerts,
      create_or_update_price ceDB cePayloadActive 10 = Except.ok (st, p, alerts)
        ∧ alerts ≠ [] ∧ ∀ a ∈ alerts, a.alert_type = "significant_decrease" := by
  obtain ⟨st, p, alerts, h1, h2, h3⟩ :=
    (price_change_alert_condition ceDB cePayloadActive 1 10
      { selling_price := none, cost_price := none, discount_price := none
        currency := none, margin_percent := none, markup_percent := none
        is_active := none, requires_approval := none, change_reason := none }).2.2.1
      ceOldPrice (by decide) (by norm_num [ceOldPrice])
  refine ⟨st, p, alerts, h1, h2.mpr ?_, ?_⟩
  · norm_num [cePayloadActive, ceOldPrice, settings_PRICE_CHANGE_THRESHOLD]
  · intro a ha
    rw [h3 a ha]
    norm_num [cePayloadActive, ceOldPrice]

/-! ### C8 — broadcast with a failing and a healthy connection -/

/-- `find?` skips a prefix of entries whose key differs. -/
theorem find_key_append_first {pre : ConnEntries} {t : String} {cs : List WSConn}
    {post : ConnEntries} (hpre : ∀ e ∈ pre, (e.1 == t) = false) :
    (pre ++ (t, cs) :: post).find? (fun e => e.1 == t) = some (t, cs) := by
  induction pre with
  | nil => simp
  | cons e rest ih =>
      rw [List.cons_append, List.find?_cons_of_neg _ (by simp [hpre e (by simp)])]
      exact ih fun e' h' => hpre e' (by simp [h'])

/-- `disconnect` skips registries that do not contain the connection and
erases its first occurrence from the first registry that does. -/
theorem disconnect_append {pre : ConnEntries} {t : String} {cs : List WSConn}
    {post : ConnEntries} {w : WSConn}
    (hpre : ∀ e ∈ pre, ∀ c ∈ e.2, (c.id == w.id) = false)
    (hcs : cs.any (fun c => c.id == w.id) = true) :
    disconnect (pre ++ (t, cs) :: post) w
      = pre ++ (t, cs.eraseP fun c => c.id == w.id) :: post := by
  induction pre with
  | nil => simp [disconnect, hcs]
  | cons e rest ih =>
      obtain ⟨t', cs'⟩ := e
      have hnone : cs'.any (fun c => c.id == w.id) = false := by
        rw [List.any_eq_false]
        intro c hc
        simp [hpre ⟨t', cs'⟩ (by simp) c hc]
      rw [List.cons_append]
      unfold disconnect
      rw [hnone]
      simp only [Bool.false_eq_true, if_false]
      rw [ih fun e' h' => hpre e' (by simp [h'])]
      rw [List.cons_append]

/-- C8. Broadcasting to a registry holding one failing (`c1`) and one
healthy (`c2`) connection delivers the message to `c2` only, removes
exactly `c1` from its registry (all other registries untouched), and tallies
the single failure (`disconnected = [c1]`, so `failed_sends = 1` and
`successful_sends = 1`); the send exception is absorbed — the operation
still returns normally. -/
theorem broadcast_partial_failure
    (pre post : ConnEntries) (t : String) (c1 c2 : WSConn)
    (hkey : ∀ e ∈ pre, (e.1 == t) = false)
    (hid : ∀ e ∈ pre, ∀ c ∈ e.2, (c.id == c1.id) = false)
    (h1 : c1.sendOk = false) (h2 : c2.sendOk = true) :
    broadcast_to_type (pre ++ (t, [c1, c2]) :: post) t
      = (pre ++ (t, [c2]) :: post, [c2], [c1]) := by
  unfold broadcast_to_type
  simp only [find_key_append_first hkey]
  have hdis : ([c1, c2].filter fun c => !c.sendOk) = [c1] := by
    simp [h1, h2]
  have hdel : ([c1, c2].filter fun c => c.sendOk) = [c2] := by
    simp [h1, h2]
  rw [hdis, hdel]
  simp only [List.foldl_cons, List.foldl_nil]
  rw [disconnect_append hid (by simp)]
  rw [List.eraseP_cons_of_pos (by simp)]

/-- C8 witness: concrete manager with the three default registries; the
failing connection 1 is evicted from `price`, the healthy connection 2
receives the message. -/
theorem broadcast_partial_failure_witness :
    broadcast_to_type
        [("inventory", []), ("price", [⟨1, false⟩, ⟨2, true⟩]), ("alerts", [])] "price"
      = ([("inventory", []), ("price", [⟨2, true⟩]), ("alerts", [])],
          [⟨2, true⟩], [⟨1, false⟩]) :=
  broadcast_partial_failure [("inventory", [])] [("alerts", [])] "price"
    ⟨1, false⟩ ⟨2, true⟩ (by decide) (by decide) rfl rfl

end InvMon
